import Mathlib

set_option autoImplicit false

/-!
Shallow embedding of `src/dags/operators/s3_to_postgres_operator.py`
(`S3ToPostgresOperator`), the single source file of the SF-EvictionTracker
repository.  The operator reads a JSON document from S3 and bulk-inserts its
records into a Postgres table.

External collaborators (boto3 S3 client, psycopg2 connection/cursor, the
Airflow PostgresHook) are modelled at their interface boundary:

* the S3 listing under `(bucket, prefix)` is a list of objects carrying a key,
  a last-modified timestamp, and a body; mirroring boto3, the
  `list_objects_v2` response carries a `Contents` entry only when the listing
  is non-empty, so subscripting `['Contents']` on an empty listing raises
  `KeyError('Contents')`;
* object bodies are modelled at the `json.loads` boundary: an object's stored
  body is the Python value that `json.loads` produces from the object's UTF-8
  text (objects whose bytes fail to decode or parse are outside the verified
  claims, which all concern successfully parsed documents);
* the relational store is modelled as an oracle that decides the outcome of
  the two statement executions (`PostgresHook.insert_rows` and
  `cursor.executemany`); every store call the operator issues is recorded in
  an event trace, so commit/rollback behaviour is observable.

Machine-level aspects (actual SQL execution, wire protocols) are opaque; the
operator's own control flow, field projection, error raising and call
ordering are translated statement by statement from the Python source.
-/

/-- A Python value as produced by `json.loads`: `None`, booleans, numbers
(modelled as integers; no claim inspects numeric contents), strings, lists
and string-keyed dicts (insertion ordered). -/
inductive PyVal where
  | none
  | bool (b : Bool)
  | int (n : Int)
  | str (s : String)
  | list (xs : List PyVal)
  | dict (kvs : List (String × PyVal))

/-- One bound parameter group of the batched insert: the dict literal built at
lines 125-157 of the source, as an ordered association list. -/
abbrev ParamGroup := List (String × PyVal)

/-- Errors a run can surface.  The first six constructors are the concrete
Python exceptions the source can raise (or receive from a store client); the
last five are the error kinds named by the specification's taxonomy, present
so that statements can compare the code's failures against them. -/
inductive Err where
  | keyError (k : String)
  | typeError (msg : String)
  | valueError (msg : String)
  | unboundLocal (n : String)
  | clientError (code : String)
  | dbError (msg : String)
  | notFound
  | encodingError
  | formatError
  | missingField (recordKey : String) (fieldName : String)
  | loadError (msg : String)
deriving DecidableEq

/-- True exactly on the spec's `FormatError` kind. -/
def Err.isFormatE : Err → Bool
  | .formatError => true
  | _ => false

/-- True exactly on the spec's `MissingFieldError` kind. -/
def Err.isMissingFieldE : Err → Bool
  | .missingField _ _ => true
  | _ => false

/-- True exactly on the spec's `NotFoundError` kind. -/
def Err.isNotFoundE : Err → Bool
  | .notFound => true
  | _ => false

/-- True exactly on the spec's `LoadError` kind. -/
def Err.isLoadE : Err → Bool
  | .loadError _ => true
  | _ => false

/-- One object of the S3 listing under the configured bucket and path: its
key, its last-modified timestamp, and its parsed body (see the module
docstring for the `json.loads` boundary). -/
structure S3Obj where
  key : String
  lastModified : Nat
  body : PyVal

/-- A store call issued by the operator, in issue order. -/
inductive Event where
  | listObjects (bucket pathPfx : String)
  | getObject (key : String)
  | insertRows (table : String) (rows : List String)
  | executeBatch (table : String) (groups : List ParamGroup)
  | commit
  | rollback
  | closeCursor

/-- Result of one `execute` run: the trace of store calls issued, and the
error the run raised, if any (`none` means the run returned normally). -/
structure Outcome where
  trace : List Event
  errOut : Option Err

/-- Oracle for the relational store's side of the two statement executions:
the result of the `PostgresHook.insert_rows` helper call, and the result of
`cursor.executemany` as a function of the bound parameter groups (e.g. a
constraint violation is an `Except.error`). -/
structure PgOracle where
  insertRowsResult : Except String Unit
  batchResult : List ParamGroup → Except String Unit

/-- The value held by the operator's `schema` and `table` attributes: either a
plain string or, as the constructor actually produces via its trailing
commas, a single-element tuple wrapping a string. -/
inductive ConfigVal where
  | scalar (s : String)
  | tuple1 (s : String)
deriving DecidableEq

/-- True when the configuration value is a plain scalar string rather than a
single-element tuple. -/
def ConfigVal.isScalar : ConfigVal → Bool
  | .scalar _ => true
  | .tuple1 _ => false

/-- The `isinstance(x, tuple)` unwrapping at lines 69-76 of the source:
a tuple's first element, a scalar unchanged. -/
def unwrapCfg : ConfigVal → String
  | .scalar s => s
  | .tuple1 s => s

/-- The operator's attributes as `__init__` leaves them.  `s3PathPfx` models
`s3_prefix`; `schemaField` and `tableField` model the `self.schema` and
`self.table` attributes, whose values the constructor wraps (see
`S3ToPostgresOperator.init`). -/
structure S3ToPostgresOperator where
  s3ConnId : String
  s3Bucket : String
  s3PathPfx : String
  srcDataType : String
  pgConnId : String
  schemaField : ConfigVal
  tableField : ConfigVal
  getLatest : Bool

/-- The constructor (source lines 25-46).  The assignments
`self.schema = schema,` and `self.table = table,` end in commas, so both
attributes receive single-element tuples, not the passed strings. -/
def S3ToPostgresOperator.init (s3ConnId s3Bucket s3PathPfx srcDataType pgConnId schema table : String)
    (getLatest : Bool) : S3ToPostgresOperator :=
  ⟨s3ConnId, s3Bucket, s3PathPfx, srcDataType, pgConnId,
    ConfigVal.tuple1 schema, ConfigVal.tuple1 table, getLatest⟩

/-- The f-string target `f'\x7bschema\x7d.\x7btable\x7d'` after the tuple
unwrapping at lines 69-76. -/
def tableName (op : S3ToPostgresOperator) : String :=
  unwrapCfg op.schemaField ++ "." ++ unwrapCfg op.tableField

/-- The fold performed by Python's `max(objects, key=lambda x: x['LastModified'])`
after its first element is taken as the initial candidate: the candidate is
replaced only on a strictly greater timestamp, so among equal maxima the
first-retained candidate wins. -/
def pyMaxFrom (acc : S3Obj) : List S3Obj → S3Obj
  | [] => acc
  | x :: xs => pyMaxFrom (if acc.lastModified < x.lastModified then x else acc) xs

/-- Source lines 53-62: the S3 side of `execute`.  Returns the store calls
issued and either the parsed body of the object read or the error raised.
When `get_latest` is true the listing is subscripted with `['Contents']`
(raising `KeyError('Contents')` on an empty listing, since boto3 omits the
entry), the maximum-timestamp entry is computed by `max`, and that key is
fetched (`get_object` raises a `NoSuchKey` client error for an absent key).
When `get_latest` is not true, no branch assigns `s3_obj`, so line 62 raises
`UnboundLocalError` for `s3_obj` before any store call is made. -/
def sourceStage (op : S3ToPostgresOperator) (s3 : List S3Obj) : List Event × Except Err PyVal :=
  if op.getLatest then
    match s3 with
    | [] => ([Event.listObjects op.s3Bucket op.s3PathPfx], Except.error (Err.keyError "Contents"))
    | x :: xs =>
      match (x :: xs).find? (fun o => o.key == (pyMaxFrom x xs).key) with
      | some obj =>
        ([Event.listObjects op.s3Bucket op.s3PathPfx, Event.getObject (pyMaxFrom x xs).key],
          Except.ok obj.body)
      | Option.none =>
        ([Event.listObjects op.s3Bucket op.s3PathPfx, Event.getObject (pyMaxFrom x xs).key],
          Except.error (Err.clientError "NoSuchKey"))
  else
    ([], Except.error (Err.unboundLocal "s3_obj"))

/-- Python's `for line in json_content`: lists yield their elements, dicts
their keys, strings their characters (as one-character strings); other values
raise `TypeError`. -/
def pyIter : PyVal → Except Err (List PyVal)
  | .list xs => .ok xs
  | .dict kvs => .ok (kvs.map (fun p => PyVal.str p.1))
  | .str s => .ok (s.data.map (fun c => PyVal.str c.toString))
  | _ => .error (.typeError "object is not iterable")

/-- First value bound to a key in a Python dict modelled as an ordered
association list. -/
def dictFind (kvs : List (String × PyVal)) (k : String) : Option PyVal :=
  (kvs.find? (fun p => p.1 == k)).map (fun p => p.2)

/-- Python's `line.get(k, None)`. -/
def dictGet (kvs : List (String × PyVal)) (k : String) : PyVal :=
  (dictFind kvs k).getD PyVal.none

/-- The optional source fields of the bind dict, in the order of source lines
130-156; each is read with `line.get(field, None)`. -/
def optionalFields : List String :=
  ["address", "city", "state", "zip", "file_date", "non_payment", "breach",
   "nuisance", "illegal_use", "failure_to_sign_renewal", "access_denial",
   "unapproved_subtenant", "owner_move_in", "demolition",
   "capital_improvement", "substantial_rehab", "ellis_act_withdrawal",
   "condo_conversion", "roommate_same_unit", "other_cause", "late_payments",
   "lead_remediation", "development", "good_samaritan_ends",
   "constraints_date", "supervisor_district", "neighborhood"]

/-- The column list of the generated INSERT statement, in the order of source
lines 85-115. -/
def insertColumns : List String :=
  ["raw_id", "created_at", "updated_at", "eviction_id"] ++ optionalFields

/-- The keys of the bind dict, in the order of source lines 126-156; the
placeholders at lines 118-123 reference exactly these keys. -/
def bindKeys : List String :=
  [":id", ":created_at", ":updated_at", "eviction_id"] ++ optionalFields

/-- The dict literal at source lines 125-157 for one record `line`.  The four
subscript lookups `line[':id']`, `line[':created_at']`, `line[':updated_at']`
and `line['eviction_id']` are evaluated in that order and raise `KeyError`
when absent; the optional fields use `line.get(field, None)`.  A non-dict
record raises `TypeError` at the first subscript. -/
def buildGroup (line : PyVal) : Except Err ParamGroup :=
  match line with
  | .dict kvs =>
    match dictFind kvs ":id" with
    | Option.none => .error (.keyError ":id")
    | some vid =>
      match dictFind kvs ":created_at" with
      | Option.none => .error (.keyError ":created_at")
      | some vc =>
        match dictFind kvs ":updated_at" with
        | Option.none => .error (.keyError ":updated_at")
        | some vu =>
          match dictFind kvs "eviction_id" with
          | Option.none => .error (.keyError "eviction_id")
          | some ve =>
            .ok ((":id", vid) :: (":created_at", vc) :: (":updated_at", vu)
              :: ("eviction_id", ve)
              :: optionalFields.map (fun k => (k, dictGet kvs k)))
  | .str _ => .error (.typeError "string indices must be integers")
  | _ => .error (.typeError "record is not subscriptable")

/-- Building the parameter groups for every record, as the generator feeding
`executemany` does while the cursor consumes it.  On a failing record the
successfully built prefix (the groups already handed to the cursor) is
returned with the error. -/
def buildAll : List PyVal → Except (List ParamGroup × Err) (List ParamGroup)
  | [] => .ok []
  | l :: ls =>
    match buildGroup l with
    | .error e => .error ([], e)
    | .ok g =>
      match buildAll ls with
      | .error pe => .error (g :: pe.1, pe.2)
      | .ok gs => .ok (g :: gs)

/-- Source lines 65-162: the Postgres side of `execute`.  In order: the
`insert_rows(f'\x7bschema\x7d.\x7btable\x7d', ['1','2','3'])` helper call at
line 80, then `cur.executemany` over the generator of bind dicts, then
`pg_conn.commit()` and `cur.close()`.  No branch issues a rollback and no
exception is caught or wrapped: the first failure propagates as-is and every
later statement (including the commit) is skipped. -/
def loadStage (tbl : String) (doc : PyVal) (pg : PgOracle) : Outcome :=
  let ev0 := Event.insertRows tbl ["1", "2", "3"]
  match pg.insertRowsResult with
  | .error m => ⟨[ev0], some (.dbError m)⟩
  | .ok _ =>
    match pyIter doc with
    | .error e => ⟨[ev0, Event.executeBatch tbl []], some e⟩
    | .ok lines =>
      match buildAll lines with
      | .error pe => ⟨[ev0, Event.executeBatch tbl pe.1], some pe.2⟩
      | .ok groups =>
        match pg.batchResult groups with
        | .error m => ⟨[ev0, Event.executeBatch tbl groups], some (.dbError m)⟩
        | .ok _ => ⟨[ev0, Event.executeBatch tbl groups, Event.commit, Event.closeCursor], Option.none⟩

/-- Source lines 49-162: one run of the operator, as the S3 stage followed by
the Postgres stage. -/
def S3ToPostgresOperator.execute (self : S3ToPostgresOperator) (s3 : List S3Obj)
    (pg : PgOracle) : Outcome :=
  match (sourceStage self s3).2 with
  | .error e => ⟨(sourceStage self s3).1, some e⟩
  | .ok body =>
    ⟨(sourceStage self s3).1 ++ (loadStage (tableName self) body pg).trace,
      (loadStage (tableName self) body pg).errOut⟩

/-- True on the batched-insert call event. -/
def isBatchEv : Event → Bool
  | .executeBatch _ _ => true
  | _ => false

/-- True on read-only S3 events (listing and object fetch). -/
def isReadEv : Event → Bool
  | .listObjects _ _ => true
  | .getObject _ => true
  | _ => false

/-- Whether a trace contains a commit. -/
def hasCommit : List Event → Bool
  | [] => false
  | .commit :: _ => true
  | _ :: rest => hasCommit rest

/-- Whether a trace contains a rollback. -/
def hasRollback : List Event → Bool
  | [] => false
  | .rollback :: _ => true
  | _ :: rest => hasRollback rest

/-- Whether a trace contains a batched-insert call. -/
def hasBatch : List Event → Bool
  | [] => false
  | .executeBatch _ _ :: _ => true
  | _ :: rest => hasBatch rest

/-- Whether a trace contains an `insert_rows` call whose row argument is the
literal list `['1','2','3']`. -/
def hasIns123 : List Event → Bool
  | [] => false
  | .insertRows _ vs :: rest => (vs == ["1", "2", "3"]) || hasIns123 rest
  | _ :: rest => hasIns123 rest

/-- The keys of the objects fetched from S3, in fetch order. -/
def readKeys : List Event → List String
  | [] => []
  | .getObject k :: rest => k :: readKeys rest
  | _ :: rest => readKeys rest

/-- True when, scanning the trace, the first write-statement call is an
`insert_rows` with the literal rows `['1','2','3']` and a batched insert is
issued later. -/
def insertBeforeBatch : List Event → Bool
  | [] => false
  | .executeBatch _ _ :: _ => false
  | .insertRows _ vs :: rest => (vs == ["1", "2", "3"]) && hasBatch rest
  | _ :: rest => insertBeforeBatch rest

/-- True when the outcome's surfaced error is the spec's `FormatError`. -/
def errIsFormat (o : Outcome) : Bool :=
  match o.errOut with
  | some e => e.isFormatE
  | Option.none => false

/-- Relational-store oracle for which every statement execution succeeds. -/
def pgOk : PgOracle := ⟨.ok (), fun _ => .ok ()⟩

/-- Relational-store oracle whose batched insert is rejected (e.g. one bound
record violates a target constraint): `executemany` raises. -/
def pgBatchFail : PgOracle := ⟨.ok (), fun _ => .error "unique_violation"⟩

/-- A sample operator constructed with `get_latest=True`. -/
def opLatest : S3ToPostgresOperator :=
  S3ToPostgresOperator.init "s3_default" "sf-evictions" "staging/" "json"
    "postgres_default" "public" "raw_load" true

/-- A sample operator constructed with the source's default `get_latest=False`
and the object key spelled out in the path configuration. -/
def opKeyed : S3ToPostgresOperator :=
  S3ToPostgresOperator.init "s3_default" "sf-evictions" "staging/evictions.json" "json"
    "postgres_default" "public" "raw_load" false

/-- A record holding the four fields the bind dict requires. -/
def mkRec (i : String) : PyVal :=
  .dict [(":id", .str i), (":created_at", .str "2024-01-01"),
    (":updated_at", .str "2024-01-02"), ("eviction_id", .str i)]

/-- A six-record document: five records followed by a sixth whose insert the
store will reject in the `pgBatchFail` scenario. -/
def docSix : PyVal :=
  .list [mkRec "r1", mkRec "r2", mkRec "r3", mkRec "r4", mkRec "r5", mkRec "r6"]

/-- A one-object world holding the six-record document. -/
def worldSix : List S3Obj := [⟨"staging/batch.json", 7, docSix⟩]

/-- A record carrying the three Socrata metadata fields but no `eviction_id`. -/
def kvsNoEvict : List (String × PyVal) :=
  [(":id", PyVal.str "row-1"), (":created_at", PyVal.str "2024-01-01"),
    (":updated_at", PyVal.str "2024-01-02")]

/-- A one-object world whose document holds one record missing `eviction_id`. -/
def worldNoEvict : List S3Obj := [⟨"staging/noevict.json", 4, PyVal.list [PyVal.dict kvsNoEvict]⟩]

/-- A one-object world whose document is an empty record list. -/
def worldEmptyDoc : List S3Obj := [⟨"staging/empty.json", 3, PyVal.list []⟩]

/-- A one-object world whose document holds one record that contains only
`eviction_id`. -/
def worldOnlyEvict : List S3Obj :=
  [⟨"staging/onlyevict.json", 2, PyVal.list [PyVal.dict [("eviction_id", PyVal.str "E1")]]⟩]

/-- A one-object world whose document parses to `\x7b\x7d`: valid UTF-8 and
valid JSON, but the top-level value is a mapping, not a sequence. -/
def worldDictDoc : List S3Obj := [⟨"staging/notalist.json", 2, PyVal.dict []⟩]

/-- Listing entry with the middle timestamp. -/
def oT2 : S3Obj := ⟨"t2", 20, PyVal.list []⟩

/-- Listing entry with the greatest timestamp. -/
def oT3 : S3Obj := ⟨"t3", 30, PyVal.list []⟩

/-- Listing entry with the least timestamp. -/
def oT1 : S3Obj := ⟨"t1", 10, PyVal.list []⟩

/-! ### Helper lemmas about traces and the stage functions -/

/-- Splitting `hasCommit` over a trace concatenation. -/
theorem hasCommit_append (a b : List Event) : hasCommit (a ++ b) = (hasCommit a || hasCommit b) := by
  induction a with
  | nil => simp [hasCommit]
  | cons e rest ih => cases e <;> simp [hasCommit, ih]

/-- Splitting `hasRollback` over a trace concatenation. -/
theorem hasRollback_append (a b : List Event) : hasRollback (a ++ b) = (hasRollback a || hasRollback b) := by
  induction a with
  | nil => simp [hasRollback]
  | cons e rest ih => cases e <;> simp [hasRollback, ih]

/-- Splitting `hasBatch` over a trace concatenation. -/
theorem hasBatch_append (a b : List Event) : hasBatch (a ++ b) = (hasBatch a || hasBatch b) := by
  induction a with
  | nil => simp [hasBatch]
  | cons e rest ih => cases e <;> simp [hasBatch, ih]

/-- Splitting `hasIns123` over a trace concatenation. -/
theorem hasIns123_append (a b : List Event) : hasIns123 (a ++ b) = (hasIns123 a || hasIns123 b) := by
  induction a with
  | nil => simp [hasIns123]
  | cons e rest ih => cases e <;> simp [hasIns123, ih, Bool.or_assoc]

/-- Splitting `readKeys` over a trace concatenation. -/
theorem readKeys_append (a b : List Event) : readKeys (a ++ b) = readKeys a ++ readKeys b := by
  induction a with
  | nil => simp [readKeys]
  | cons e rest ih => cases e <;> simp [readKeys, ih]

/-- A trace of read-only S3 events contains no commit. -/
theorem all_read_no_commit (evs : List Event) (h : evs.all isReadEv = true) : hasCommit evs = false := by
  induction evs with
  | nil => rfl
  | cons e rest ih =>
    rw [List.all_cons, Bool.and_eq_true] at h
    obtain ⟨h1, h2⟩ := h
    cases e <;> first
      | exact ih h2
      | exact absurd h1 (by simp [isReadEv])

/-- A trace of read-only S3 events contains no rollback. -/
theorem all_read_no_rollback (evs : List Event) (h : evs.all isReadEv = true) : hasRollback evs = false := by
  induction evs with
  | nil => rfl
  | cons e rest ih =>
    rw [List.all_cons, Bool.and_eq_true] at h
    obtain ⟨h1, h2⟩ := h
    cases e <;> first
      | exact ih h2
      | exact absurd h1 (by simp [isReadEv])

/-- A trace of read-only S3 events contains no batched insert. -/
theorem all_read_no_batch (evs : List Event) (h : evs.all isReadEv = true) : hasBatch evs = false := by
  induction evs with
  | nil => rfl
  | cons e rest ih =>
    rw [List.all_cons, Bool.and_eq_true] at h
    obtain ⟨h1, h2⟩ := h
    cases e <;> first
      | exact ih h2
      | exact absurd h1 (by simp [isReadEv])

/-- A trace of read-only S3 events contains no `insert_rows` call. -/
theorem all_read_no_ins123 (evs : List Event) (h : evs.all isReadEv = true) : hasIns123 evs = false := by
  induction evs with
  | nil => rfl
  | cons e rest ih =>
    rw [List.all_cons, Bool.and_eq_true] at h
    obtain ⟨h1, h2⟩ := h
    cases e <;> first
      | exact ih h2
      | exact absurd h1 (by simp [isReadEv])

/-- Prepending read-only S3 events does not affect `insertBeforeBatch`. -/
theorem ibb_append_read (evs l : List Event) (h : evs.all isReadEv = true) :
    insertBeforeBatch (evs ++ l) = insertBeforeBatch l := by
  induction evs with
  | nil => rfl
  | cons e rest ih =>
    rw [List.all_cons, Bool.and_eq_true] at h
    obtain ⟨h1, h2⟩ := h
    cases e <;> first
      | exact ih h2
      | exact absurd h1 (by simp [isReadEv])

/-- Every event the S3 stage records is a read-only S3 event. -/
theorem sourceStage_all_read (op : S3ToPostgresOperator) (s3 : List S3Obj) :
    ((sourceStage op s3).1).all isReadEv = true := by
  unfold sourceStage
  by_cases hg : op.getLatest
  · rw [if_pos hg]
    cases s3 with
    | nil => rfl
    | cons x xs =>
      cases hf : (x :: xs).find? (fun o => o.key == (pyMaxFrom x xs).key) with
      | none => simp [hf, isReadEv]
      | some obj => simp [hf, isReadEv]
  · rw [if_neg hg]
    rfl

/-- The candidate Python's `max` retains is the initial candidate or one of
the remaining entries. -/
theorem pyMaxFrom_mem (acc : S3Obj) (l : List S3Obj) : pyMaxFrom acc l = acc ∨ pyMaxFrom acc l ∈ l := by
  induction l generalizing acc with
  | nil => exact Or.inl rfl
  | cons x xs ih =>
    unfold pyMaxFrom
    by_cases h : acc.lastModified < x.lastModified
    · rw [if_pos h]
      rcases ih x with h1 | h1
      · exact Or.inr (by rw [h1]; exact List.mem_cons_self x xs)
      · exact Or.inr (List.mem_cons_of_mem x h1)
    · rw [if_neg h]
      rcases ih acc with h1 | h1
      · exact Or.inl h1
      · exact Or.inr (List.mem_cons_of_mem x h1)

/-- The candidate Python's `max` retains has a timestamp at least as large as
the initial candidate's and every remaining entry's. -/
theorem pyMaxFrom_ge (acc : S3Obj) (l : List S3Obj) :
    acc.lastModified ≤ (pyMaxFrom acc l).lastModified
    ∧ ∀ o ∈ l, o.lastModified ≤ (pyMaxFrom acc l).lastModified := by
  induction l generalizing acc with
  | nil => exact ⟨le_refl _, fun o ho => absurd ho (List.not_mem_nil o)⟩
  | cons x xs ih =>
    unfold pyMaxFrom
    by_cases h : acc.lastModified < x.lastModified
    · rw [if_pos h]
      obtain ⟨h1, h2⟩ := ih x
      refine ⟨le_trans (le_of_lt h) h1, ?_⟩
      intro o ho
      rcases List.mem_cons.mp ho with ho' | ho'
      · rw [ho']; exact h1
      · exact h2 o ho'
    · rw [if_neg h]
      obtain ⟨h1, h2⟩ := ih acc
      refine ⟨h1, ?_⟩
      intro o ho
      rcases List.mem_cons.mp ho with ho' | ho'
      · rw [ho']; exact le_trans (Nat.le_of_not_lt h) h1
      · exact h2 o ho'

/-- When every record of a prefix binds successfully and the next record
fails, the generator feeding `executemany` fails with that record's error,
after handing over exactly the prefix's groups. -/
theorem buildAll_fail_at (pre : List PyVal) (r : PyVal) (post : List PyVal)
    (gs : List ParamGroup) (e : Err)
    (hpre : buildAll pre = .ok gs) (hr : buildGroup r = .error e) :
    buildAll (pre ++ r :: post) = .error (gs, e) := by
  induction pre generalizing gs with
  | nil =>
    simp only [buildAll] at hpre
    obtain rfl : gs = [] := by
      cases hpre
      rfl
    simp only [List.nil_append, buildAll, hr]
  | cons p ps ih =>
    simp only [buildAll] at hpre
    cases hG : buildGroup p with
    | error e0 => rw [hG] at hpre; cases hpre
    | ok g =>
      rw [hG] at hpre
      cases hB : buildAll ps with
      | error pe => rw [hB] at hpre; cases hpre
      | ok gs0 =>
        rw [hB] at hpre
        obtain rfl : gs = g :: gs0 := by
          cases hpre
          rfl
        show buildAll (p :: (ps ++ r :: post)) = .error (g :: gs0, e)
        simp only [buildAll, hG, ih gs0 hB]

/-- A record among whose fields the three Socrata metadata keys appear but
`eviction_id` does not fails its bind dict with `KeyError('eviction_id')`. -/
theorem buildGroup_missing_evid (kvs : List (String × PyVal)) (vid vc vu : PyVal)
    (h1 : dictFind kvs ":id" = some vid)
    (h2 : dictFind kvs ":created_at" = some vc)
    (h3 : dictFind kvs ":updated_at" = some vu)
    (h4 : dictFind kvs "eviction_id" = Option.none) :
    buildGroup (.dict kvs) = .error (.keyError "eviction_id") := by
  simp only [buildGroup, h1, h2, h3, h4]

/-- S3 stage on an empty listing in latest mode: one listing call, then
`KeyError('Contents')`. -/
theorem sourceStage_nil (op : S3ToPostgresOperator) (hg : op.getLatest = true) :
    sourceStage op []
      = ([Event.listObjects op.s3Bucket op.s3PathPfx], Except.error (Err.keyError "Contents")) := by
  simp [sourceStage, hg]

/-- S3 stage on a non-empty listing in latest mode when the maximal entry's
key is found: a listing call and a fetch of that key, returning its body. -/
theorem sourceStage_found (op : S3ToPostgresOperator) (x : S3Obj) (xs : List S3Obj) (obj : S3Obj)
    (hg : op.getLatest = true)
    (hf : (x :: xs).find? (fun o => o.key == (pyMaxFrom x xs).key) = some obj) :
    sourceStage op (x :: xs)
      = ([Event.listObjects op.s3Bucket op.s3PathPfx, Event.getObject (pyMaxFrom x xs).key],
          Except.ok obj.body) := by
  simp [sourceStage, hg, hf]

/-- S3 stage on a non-empty listing in latest mode when the maximal entry's
key is absent from the store: the fetch raises a `NoSuchKey` client error. -/
theorem sourceStage_notfound (op : S3ToPostgresOperator) (x : S3Obj) (xs : List S3Obj)
    (hg : op.getLatest = true)
    (hf : (x :: xs).find? (fun o => o.key == (pyMaxFrom x xs).key) = Option.none) :
    sourceStage op (x :: xs)
      = ([Event.listObjects op.s3Bucket op.s3PathPfx, Event.getObject (pyMaxFrom x xs).key],
          Except.error (Err.clientError "NoSuchKey")) := by
  simp [sourceStage, hg, hf]

/-- S3 stage when `get_latest` is not true: no store call, and
`UnboundLocalError` for `s3_obj`. -/
theorem sourceStage_nolatest (op : S3ToPostgresOperator) (s3 : List S3Obj)
    (hg : op.getLatest = false) :
    sourceStage op s3 = ([], Except.error (Err.unboundLocal "s3_obj")) := by
  simp [sourceStage, hg]

/-- Iterating a non-iterable Python value raises `TypeError`, never the
spec's `FormatError`. -/
theorem pyIter_err (d : PyVal) (e : Err) (h : pyIter d = .error e) : e.isFormatE = false := by
  cases d <;> simp only [pyIter] at h
  case none => cases h; rfl
  case bool b => cases h; rfl
  case int n => cases h; rfl
  all_goals cases h

/-- A failing bind dict raises `KeyError` or `TypeError`, never the spec's
`FormatError`. -/
theorem buildGroup_err (l : PyVal) (e : Err) (h : buildGroup l = .error e) : e.isFormatE = false := by
  cases l with
  | dict kvs =>
    simp only [buildGroup] at h
    cases hf1 : dictFind kvs ":id" with
    | none => rw [hf1] at h; cases h; rfl
    | some vid =>
      rw [hf1] at h
      cases hf2 : dictFind kvs ":created_at" with
      | none => rw [hf2] at h; cases h; rfl
      | some vc =>
        rw [hf2] at h
        cases hf3 : dictFind kvs ":updated_at" with
        | none => rw [hf3] at h; cases h; rfl
        | some vu =>
          rw [hf3] at h
          cases hf4 : dictFind kvs "eviction_id" with
          | none => rw [hf4] at h; cases h; rfl
          | some ve => rw [hf4] at h; cases h
  | str s => simp only [buildGroup] at h; cases h; rfl
  | none => simp only [buildGroup] at h; cases h; rfl
  | bool b => simp only [buildGroup] at h; cases h; rfl
  | int n => simp only [buildGroup] at h; cases h; rfl
  | list xs => simp only [buildGroup] at h; cases h; rfl

/-- A failing generator run inherits its error from some failing bind dict,
so it never raises the spec's `FormatError`. -/
theorem buildAll_err (ls : List PyVal) (pe : List ParamGroup × Err)
    (h : buildAll ls = .error pe) : pe.2.isFormatE = false := by
  induction ls generalizing pe with
  | nil => cases h
  | cons l rest ih =>
    simp only [buildAll] at h
    cases hG : buildGroup l with
    | error e0 =>
      rw [hG] at h
      cases h
      exact buildGroup_err l e0 hG
    | ok g =>
      rw [hG] at h
      cases hB : buildAll rest with
      | error pe0 =>
        rw [hB] at h
        cases h
        exact ih pe0 hB
      | ok gs => rw [hB] at h; cases h

/-- Errors of the S3 stage are `KeyError`, `NoSuchKey` or `UnboundLocalError`,
never the spec's `FormatError`. -/
theorem sourceStage_err (op : S3ToPostgresOperator) (s3 : List S3Obj) (e : Err)
    (h : (sourceStage op s3).2 = .error e) : e.isFormatE = false := by
  by_cases hg : op.getLatest = true
  · cases s3 with
    | nil => rw [sourceStage_nil op hg] at h; cases h; rfl
    | cons x xs =>
      cases hf : (x :: xs).find? (fun o => o.key == (pyMaxFrom x xs).key) with
      | none => rw [sourceStage_notfound op x xs hg hf] at h; cases h; rfl
      | some obj => rw [sourceStage_found op x xs obj hg hf] at h; cases h
  · rw [Bool.not_eq_true] at hg
    rw [sourceStage_nolatest op s3 hg] at h
    cases h; rfl

/-- Errors surfaced by the Postgres stage come from the store clients, the
iteration, or the bind dicts, never as the spec's `FormatError`. -/
theorem loadStage_err (t : String) (d : PyVal) (p : PgOracle) (e : Err)
    (h : (loadStage t d p).errOut = some e) : e.isFormatE = false := by
  unfold loadStage at h
  cases hI : p.insertRowsResult with
  | error m => simp only [hI] at h; cases h; rfl
  | ok u =>
    simp only [hI] at h
    cases hD : pyIter d with
    | error e0 => simp only [hD] at h; cases h; exact pyIter_err d _ hD
    | ok lines =>
      simp only [hD] at h
      cases hB : buildAll lines with
      | error pe0 => simp only [hB] at h; cases h; exact buildAll_err lines _ hB
      | ok gs =>
        simp only [hB] at h
        cases hR : p.batchResult gs with
        | error m => simp only [hR] at h; cases h; rfl
        | ok u2 => simp only [hR] at h; cases h

/-- Postgres stage when the generator fails on a record: the `insert_rows`
call, then the batch call with the prefix groups, then the record's own
error; no commit, no rollback. -/
theorem loadStage_buildfail (t : String) (d : PyVal) (p : PgOracle)
    (lines : List PyVal) (pre : List ParamGroup) (e : Err)
    (hins : p.insertRowsResult = .ok ())
    (hit : pyIter d = .ok lines)
    (hb : buildAll lines = .error (pre, e)) :
    loadStage t d p
      = ⟨[Event.insertRows t ["1", "2", "3"], Event.executeBatch t pre], some e⟩ := by
  unfold loadStage
  simp only [hins, hit, hb]

/-- Postgres stage when the store rejects the batch: the `insert_rows` call,
then the batch call, then the store's error surfaced as-is; no commit, no
rollback. -/
theorem loadStage_batchfail (t : String) (d : PyVal) (p : PgOracle)
    (lines : List PyVal) (groups : List ParamGroup) (msg : String)
    (hins : p.insertRowsResult = .ok ())
    (hit : pyIter d = .ok lines)
    (hb : buildAll lines = .ok groups)
    (hfail : p.batchResult groups = .error msg) :
    loadStage t d p
      = ⟨[Event.insertRows t ["1", "2", "3"], Event.executeBatch t groups],
          some (.dbError msg)⟩ := by
  unfold loadStage
  simp only [hins, hit, hb, hfail]

/-- The Postgres stage fetches no S3 object. -/
theorem loadStage_readKeys (t : String) (d : PyVal) (p : PgOracle) :
    readKeys (loadStage t d p).trace = [] := by
  unfold loadStage
  cases hI : p.insertRowsResult with
  | error m => simp [hI, readKeys]
  | ok u =>
    cases hD : pyIter d with
    | error e0 => simp [hI, hD, readKeys]
    | ok lines =>
      cases hB : buildAll lines with
      | error pe => simp [hI, hD, hB, readKeys]
      | ok gs =>
        cases hR : p.batchResult gs with
        | error m => simp [hI, hD, hB, hR, readKeys]
        | ok u2 => simp [hI, hD, hB, hR, readKeys]

/-- Whenever the Postgres stage issues the batched insert, the preceding
write-statement call in its trace is the literal
`insert_rows(..., ['1','2','3'])`. -/
theorem loadStage_insert_first (t : String) (d : PyVal) (p : PgOracle)
    (h : hasBatch (loadStage t d p).trace = true) :
    insertBeforeBatch (loadStage t d p).trace = true := by
  unfold loadStage at h ⊢
  cases hI : p.insertRowsResult with
  | error m => simp only [hI] at h; simp [hasBatch] at h
  | ok u =>
    simp only [hI] at h ⊢
    cases hD : pyIter d with
    | error e0 => simp only [hD]; simp [insertBeforeBatch, hasBatch]
    | ok lines =>
      simp only [hD] at h ⊢
      cases hB : buildAll lines with
      | error pe => simp only [hB]; simp [insertBeforeBatch, hasBatch]
      | ok gs =>
        simp only [hB] at h ⊢
        cases hR : p.batchResult gs with
        | error m => simp only [hR]; simp [insertBeforeBatch, hasBatch]
        | ok u2 => simp only [hR]; simp [insertBeforeBatch, hasBatch]

/-- Errors surfaced by a whole run are never the spec's `FormatError`. -/
theorem execute_err_not_format (op : S3ToPostgresOperator) (s3 : List S3Obj) (pg : PgOracle)
    (e : Err) (h : (op.execute s3 pg).errOut = some e) : e.isFormatE = false := by
  unfold S3ToPostgresOperator.execute at h
  cases hs : (sourceStage op s3).2 with
  | error e0 =>
    simp only [hs] at h
    cases h
    exact sourceStage_err op s3 _ hs
  | ok body =>
    simp only [hs] at h
    exact loadStage_err (tableName op) body pg e h

/-! ### Claim theorems -/

/-- C1 (counterexample): in a run whose batched insert of six records the
store rejects, the claim's conjunction fails: the surfaced error is the raw
store error (`dbError`), which is not a `LoadError` wrapper, and the trace
contains no rollback; the extraneous `insert_rows` call of this run had
already been issued. -/
theorem c1_counterexample :
    (opLatest.execute worldSix pgBatchFail).errOut = some (.dbError "unique_violation")
    ∧ Err.isLoadE (.dbError "unique_violation") = false
    ∧ hasRollback (opLatest.execute worldSix pgBatchFail).trace = false
    ∧ hasIns123 (opLatest.execute worldSix pgBatchFail).trace = true :=
  ⟨rfl, rfl, rfl, rfl⟩

/-- C1 (amended): for every run whose batched insert the store rejects, the
underlying store error propagates unwrapped (no `LoadError`), no commit and
no rollback are ever issued on the batch connection — the batch's rows are
never committed by this run — and the preliminary `insert_rows` call of the
run has already been issued. -/
theorem c1_amended (op : S3ToPostgresOperator) (s3 : List S3Obj) (pg : PgOracle)
    (body : PyVal) (lines : List PyVal) (groups : List ParamGroup) (msg : String)
    (hsrc : (sourceStage op s3).2 = .ok body)
    (hins : pg.insertRowsResult = .ok ())
    (hit : pyIter body = .ok lines)
    (hb : buildAll lines = .ok groups)
    (hfail : pg.batchResult groups = .error msg) :
    (op.execute s3 pg).errOut = some (.dbError msg)
    ∧ Err.isLoadE (.dbError msg) = false
    ∧ hasCommit (op.execute s3 pg).trace = false
    ∧ hasRollback (op.execute s3 pg).trace = false
    ∧ hasIns123 (op.execute s3 pg).trace = true := by
  have hload := loadStage_batchfail (tableName op) body pg lines groups msg hins hit hb hfail
  have hex : op.execute s3 pg
      = ⟨(sourceStage op s3).1
          ++ [Event.insertRows (tableName op) ["1", "2", "3"],
              Event.executeBatch (tableName op) groups],
          some (.dbError msg)⟩ := by
    unfold S3ToPostgresOperator.execute
    simp only [hsrc, hload]
  have herr : (op.execute s3 pg).errOut = some (.dbError msg) := by rw [hex]
  have htr : (op.execute s3 pg).trace
      = (sourceStage op s3).1
        ++ [Event.insertRows (tableName op) ["1", "2", "3"],
            Event.executeBatch (tableName op) groups] := by rw [hex]
  refine ⟨herr, rfl, ?_, ?_, ?_⟩
  · rw [htr, hasCommit_append, all_read_no_commit _ (sourceStage_all_read op s3)]
    simp [hasCommit]
  · rw [htr, hasRollback_append, all_read_no_rollback _ (sourceStage_all_read op s3)]
    simp [hasRollback]
  · rw [htr, hasIns123_append, all_read_no_ins123 _ (sourceStage_all_read op s3)]
    simp [hasIns123]

/-- C1 (witness): the amended theorem applied to a concrete run (empty record
batch, store rejecting the batch with a unique violation). -/
theorem c1_amended_witness :
    (opLatest.execute worldEmptyDoc pgBatchFail).errOut = some (.dbError "unique_violation")
    ∧ Err.isLoadE (.dbError "unique_violation") = false
    ∧ hasCommit (opLatest.execute worldEmptyDoc pgBatchFail).trace = false
    ∧ hasRollback (opLatest.execute worldEmptyDoc pgBatchFail).trace = false
    ∧ hasIns123 (opLatest.execute worldEmptyDoc pgBatchFail).trace = true :=
  c1_amended opLatest worldEmptyDoc pgBatchFail (PyVal.list []) [] [] "unique_violation"
    rfl rfl rfl rfl rfl

/-- C2 (counterexample): a run over one record that has the three Socrata
metadata fields but no `eviction_id` fails with `KeyError('eviction_id')`,
which is not the spec's `MissingFieldError` (in particular it does not name
the record's identifying key), and the run has already issued its
`insert_rows` write call. -/
theorem c2_counterexample :
    (opLatest.execute worldNoEvict pgOk).errOut = some (.keyError "eviction_id")
    ∧ Err.isMissingFieldE (.keyError "eviction_id") = false
    ∧ hasIns123 (opLatest.execute worldNoEvict pgOk).trace = true :=
  ⟨rfl, rfl, rfl⟩

/-- C2 (amended): for every run whose document contains a record with the
three Socrata metadata fields but without `eviction_id` (all earlier records
binding successfully), the run fails with `KeyError('eviction_id')` — naming
the field only, not the record — no commit is ever issued on the batch
connection, and the extraneous `insert_rows` call has already been issued. -/
theorem c2_amended (op : S3ToPostgresOperator) (s3 : List S3Obj) (pg : PgOracle)
    (pre post : List PyVal) (kvs : List (String × PyVal)) (gs : List ParamGroup)
    (vid vc vu : PyVal)
    (hsrc : (sourceStage op s3).2 = .ok (.list (pre ++ PyVal.dict kvs :: post)))
    (hins : pg.insertRowsResult = .ok ())
    (hpre : buildAll pre = .ok gs)
    (h1 : dictFind kvs ":id" = some vid)
    (h2 : dictFind kvs ":created_at" = some vc)
    (h3 : dictFind kvs ":updated_at" = some vu)
    (h4 : dictFind kvs "eviction_id" = Option.none) :
    (op.execute s3 pg).errOut = some (.keyError "eviction_id")
    ∧ Err.isMissingFieldE (.keyError "eviction_id") = false
    ∧ hasCommit (op.execute s3 pg).trace = false
    ∧ hasIns123 (op.execute s3 pg).trace = true := by
  have hgrp := buildGroup_missing_evid kvs vid vc vu h1 h2 h3 h4
  have hb := buildAll_fail_at pre (PyVal.dict kvs) post gs (.keyError "eviction_id") hpre hgrp
  have hload := loadStage_buildfail (tableName op) (PyVal.list (pre ++ PyVal.dict kvs :: post))
    pg (pre ++ PyVal.dict kvs :: post) gs (.keyError "eviction_id") hins rfl hb
  have hex : op.execute s3 pg
      = ⟨(sourceStage op s3).1
          ++ [Event.insertRows (tableName op) ["1", "2", "3"],
              Event.executeBatch (tableName op) gs],
          some (.keyError "eviction_id")⟩ := by
    unfold S3ToPostgresOperator.execute
    simp only [hsrc, hload]
  have herr : (op.execute s3 pg).errOut = some (.keyError "eviction_id") := by rw [hex]
  have htr : (op.execute s3 pg).trace
      = (sourceStage op s3).1
        ++ [Event.insertRows (tableName op) ["1", "2", "3"],
            Event.executeBatch (tableName op) gs] := by rw [hex]
  refine ⟨herr, rfl, ?_, ?_⟩
  · rw [htr, hasCommit_append, all_read_no_commit _ (sourceStage_all_read op s3)]
    simp [hasCommit]
  · rw [htr, hasIns123_append, all_read_no_ins123 _ (sourceStage_all_read op s3)]
    simp [hasIns123]

/-- C2 (witness): the amended theorem applied to the concrete one-record
world whose record lacks `eviction_id`. -/
theorem c2_amended_witness :
    (opLatest.execute worldNoEvict pgOk).errOut = some (.keyError "eviction_id")
    ∧ Err.isMissingFieldE (.keyError "eviction_id") = false
    ∧ hasCommit (opLatest.execute worldNoEvict pgOk).trace = false
    ∧ hasIns123 (opLatest.execute worldNoEvict pgOk).trace = true :=
  c2_amended opLatest worldNoEvict pgOk [] [] kvsNoEvict []
    (PyVal.str "row-1") (PyVal.str "2024-01-01") (PyVal.str "2024-01-02")
    rfl rfl rfl rfl rfl rfl rfl

/-- C3 (counterexample): a run over a record holding only `eviction_id` fails
with `KeyError(':id')` — the insert requires the record itself to supply the
`raw_id`/`created_at`/`updated_at` values via the `:id`, `:created_at` and
`:updated_at` fields, contradicting "populated by the target store, not
sourced from the record". -/
theorem c3_counterexample :
    (opLatest.execute worldOnlyEvict pgOk).errOut = some (.keyError ":id") :=
  rfl

/-- C3 (amended): the insert's first three columns are `raw_id`, `created_at`
and `updated_at`, their bind keys are the record fields `:id`, `:created_at`
and `:updated_at`, and for every record that carries those fields the bind
dict's first three entries are exactly the record's values for them — the
columns are sourced from the record, and the fields are required. -/
theorem c3_amended (vid vc vu ve : PyVal) (rest : List (String × PyVal)) :
    insertColumns.take 3 = ["raw_id", "created_at", "updated_at"]
    ∧ bindKeys.take 3 = [":id", ":created_at", ":updated_at"]
    ∧ (buildGroup (.dict ((":id", vid) :: (":created_at", vc) :: (":updated_at", vu)
          :: ("eviction_id", ve) :: rest))).map (fun g => g.take 3)
        = .ok [(":id", vid), (":created_at", vc), (":updated_at", vu)] :=
  ⟨rfl, rfl, rfl⟩

/-- C4 (counterexample): a record holding only `eviction_id` never yields a
TargetRow at all — its bind dict fails with `KeyError(':id')` — so the
claim's "record containing eviction_id and no other fields produces a
TargetRow of nulls" is false on the code. -/
theorem c4_counterexample :
    buildGroup (.dict [("eviction_id", PyVal.str "E1")]) = .error (.keyError ":id") :=
  rfl

/-- C4 (amended): for every record holding exactly the four required fields
`:id`, `:created_at`, `:updated_at` and `eviction_id`, the bind dict binds
every optional column (`address` through `neighborhood`) to the explicit
Python `None`. -/
theorem c4_amended (vid vc vu ve : PyVal) :
    buildGroup (.dict [(":id", vid), (":created_at", vc), (":updated_at", vu),
        ("eviction_id", ve)])
      = .ok ([(":id", vid), (":created_at", vc), (":updated_at", vu), ("eviction_id", ve)]
          ++ optionalFields.map (fun k => (k, PyVal.none))) :=
  rfl

/-- C5 (code behaviour): with `get_latest=False` — the constructor's default,
the mode the claim's explicit-key runs use — `execute` performs no store
listing and reads nothing: it raises `UnboundLocalError` for `s3_obj`, even
when the configured object exists in the store. -/
theorem c5_code_behavior :
    (opKeyed.execute [⟨"staging/evictions.json", 5, PyVal.list []⟩] pgOk).errOut
        = some (.unboundLocal "s3_obj")
    ∧ (opKeyed.execute [⟨"staging/evictions.json", 5, PyVal.list []⟩] pgOk).trace = [] :=
  ⟨rfl, rfl⟩

/-- C6 (counterexample): resolving "latest" over an empty listing fails with
`KeyError('Contents')` — the boto3 response for an empty listing has no
`Contents` entry — not with the spec's distinguished `NotFoundError`. -/
theorem c6_counterexample :
    (opLatest.execute [] pgOk).errOut = some (.keyError "Contents")
    ∧ Err.isNotFoundE (.keyError "Contents") = false :=
  ⟨rfl, rfl⟩

/-- C6 (amended): for every latest-mode run over an empty listing, the run
fails — after the single listing call and before any other store call — with
`KeyError('Contents')`, a generic key-lookup error rather than a
distinguished `NotFoundError`. -/
theorem c6_amended (op : S3ToPostgresOperator) (pg : PgOracle) (hg : op.getLatest = true) :
    (op.execute [] pg).errOut = some (.keyError "Contents")
    ∧ (op.execute [] pg).trace = [Event.listObjects op.s3Bucket op.s3PathPfx]
    ∧ Err.isNotFoundE (.keyError "Contents") = false := by
  have hex : op.execute [] pg
      = ⟨[Event.listObjects op.s3Bucket op.s3PathPfx], some (.keyError "Contents")⟩ := by
    unfold S3ToPostgresOperator.execute
    simp only [sourceStage_nil op hg]
  rw [hex]
  exact ⟨rfl, rfl, rfl⟩

/-- C6 (witness): the amended theorem applied to the concrete latest-mode
operator over the empty listing. -/
theorem c6_amended_witness :
    (opLatest.execute [] pgOk).errOut = some (.keyError "Contents")
    ∧ (opLatest.execute [] pgOk).trace = [Event.listObjects opLatest.s3Bucket opLatest.s3PathPfx]
    ∧ Err.isNotFoundE (.keyError "Contents") = false :=
  c6_amended opLatest pgOk rfl

/-- C7: for every non-empty latest-mode listing, in any listing order, the
run reads exactly the key of the entry Python's strict greater-than `max`
fold retained, that entry's key occurs in the listing, and its last-modified
timestamp is maximal among all listed entries (ties keep the first-retained
candidate, by definition of the fold `pyMaxFrom`). -/
theorem c7_latest_selection (op : S3ToPostgresOperator) (x : S3Obj) (xs : List S3Obj)
    (pg : PgOracle) (hg : op.getLatest = true) :
    readKeys (op.execute (x :: xs) pg).trace = [(pyMaxFrom x xs).key]
    ∧ ((x :: xs).any (fun o => o.key == (pyMaxFrom x xs).key)) = true
    ∧ ((x :: xs).all (fun o => decide (o.lastModified ≤ (pyMaxFrom x xs).lastModified))) = true := by
  have hmem : pyMaxFrom x xs ∈ x :: xs := by
    rcases pyMaxFrom_mem x xs with hm | hm
    · rw [hm]; exact List.mem_cons_self x xs
    · exact List.mem_cons_of_mem x hm
  refine ⟨?_, ?_, ?_⟩
  · cases hf : (x :: xs).find? (fun o => o.key == (pyMaxFrom x xs).key) with
    | some obj =>
      have htr : (op.execute (x :: xs) pg).trace
          = [Event.listObjects op.s3Bucket op.s3PathPfx,
              Event.getObject (pyMaxFrom x xs).key]
            ++ (loadStage (tableName op) obj.body pg).trace := by
        unfold S3ToPostgresOperator.execute
        simp only [sourceStage_found op x xs obj hg hf]
      rw [htr, readKeys_append, loadStage_readKeys]
      simp [readKeys]
    | none =>
      have htr : (op.execute (x :: xs) pg).trace
          = [Event.listObjects op.s3Bucket op.s3PathPfx,
              Event.getObject (pyMaxFrom x xs).key] := by
        unfold S3ToPostgresOperator.execute
        simp only [sourceStage_notfound op x xs hg hf]
      rw [htr]
      simp [readKeys]
  · rw [List.any_eq_true]
    exact ⟨pyMaxFrom x xs, hmem, by simp⟩
  · rw [List.all_eq_true]
    intro o ho
    rw [decide_eq_true_eq]
    rcases List.mem_cons.mp ho with ho' | ho'
    · rw [ho']; exact (pyMaxFrom_ge x xs).1
    · exact (pyMaxFrom_ge x xs).2 o ho'

/-- C7 (witness): three objects with timestamps 10 < 20 < 30 listed out of
order; the run reads the key of the fold's choice, which evaluates to "t3". -/
theorem c7_witness :
    readKeys (opLatest.execute [oT2, oT3, oT1] pgOk).trace = [(pyMaxFrom oT2 [oT3, oT1]).key]
    ∧ ([oT2, oT3, oT1].any (fun o => o.key == (pyMaxFrom oT2 [oT3, oT1]).key)) = true
    ∧ ([oT2, oT3, oT1].all (fun o => decide (o.lastModified ≤ (pyMaxFrom oT2 [oT3, oT1]).lastModified))) = true :=
  c7_latest_selection opLatest oT2 [oT3, oT1] pgOk rfl

/-- C8 (counterexample): the payload whose parsed top-level value is the
empty mapping (document text `\x7b\x7d`, valid UTF-8, not a sequence) does
not make decode fail with `FormatError`: the run raises nothing at all and
commits, with zero bound record groups. -/
theorem c8_counterexample :
    (opLatest.execute worldDictDoc pgOk).errOut = Option.none
    ∧ hasCommit (opLatest.execute worldDictDoc pgOk).trace = true :=
  ⟨rfl, rfl⟩

/-- C8 (amended): no run ever fails with the spec's `FormatError`: the code
performs no structural validation of the parsed document — a non-sequence
top-level value either iterates (its elements failing later, if at all, with
`TypeError` or `KeyError` during parameter binding) or, like an empty
mapping, loads zero batch rows and commits. -/
theorem c8_amended (op : S3ToPostgresOperator) (s3 : List S3Obj) (pg : PgOracle) :
    errIsFormat (op.execute s3 pg) = false := by
  unfold errIsFormat
  cases ho : (op.execute s3 pg).errOut with
  | none => rfl
  | some e =>
    exact execute_err_not_format op s3 pg e ho

/-- C9 (code behaviour): for every choice of constructor arguments, the
constructor's trailing commas leave the `schema` and `table` attributes
holding single-element tuples wrapping the passed strings — never plain
scalar values. -/
theorem c9_code_behavior (a b p t pc sch tbl : String) (gl : Bool) :
    (S3ToPostgresOperator.init a b p t pc sch tbl gl).schemaField = ConfigVal.tuple1 sch
    ∧ (S3ToPostgresOperator.init a b p t pc sch tbl gl).tableField = ConfigVal.tuple1 tbl
    ∧ ConfigVal.isScalar ((S3ToPostgresOperator.init a b p t pc sch tbl gl).schemaField) = false
    ∧ ConfigVal.isScalar ((S3ToPostgresOperator.init a b p t pc sch tbl gl).tableField) = false :=
  ⟨rfl, rfl, rfl, rfl⟩

/-- C10: in every run that issues the batched parameterized insert, the first
write-statement call of the trace is the `insert_rows` call binding the
literal values `['1','2','3']` — independent of the input records — with the
batch following it. -/
theorem c10_extraneous_insert (op : S3ToPostgresOperator) (s3 : List S3Obj) (pg : PgOracle)
    (h : hasBatch (op.execute s3 pg).trace = true) :
    insertBeforeBatch (op.execute s3 pg).trace = true := by
  cases hs : (sourceStage op s3).2 with
  | error e =>
    have htr : (op.execute s3 pg).trace = (sourceStage op s3).1 := by
      unfold S3ToPostgresOperator.execute
      simp only [hs]
    rw [htr, all_read_no_batch _ (sourceStage_all_read op s3)] at h
    cases h
  | ok body =>
    have htr : (op.execute s3 pg).trace
        = (sourceStage op s3).1 ++ (loadStage (tableName op) body pg).trace := by
      unfold S3ToPostgresOperator.execute
      simp only [hs]
    rw [htr] at h ⊢
    rw [hasBatch_append, all_read_no_batch _ (sourceStage_all_read op s3), Bool.false_or] at h
    rw [ibb_append_read _ _ (sourceStage_all_read op s3)]
    exact loadStage_insert_first _ _ _ h

/-- C10 (witness): the concrete six-record run issues the batch, and its
first write call is the extraneous `insert_rows(['1','2','3'])`. -/
theorem c10_witness :
    hasBatch (opLatest.execute worldSix pgOk).trace = true
    ∧ insertBeforeBatch (opLatest.execute worldSix pgOk).trace = true :=
  ⟨rfl, c10_extraneous_insert opLatest worldSix pgOk rfl⟩
